import Mathlib

/-!
Shallow embedding of `src/app/api/route.ts` from rimorin/csv_reader: a
Next.js route handler that paginates and filters a remote CSV file with a
Redis cache in front.

Modelling conventions:
* JS numbers appearing as request fields (`page`, `limit`) are `Int`; the
  JSON body's optional fields are `Option` (JS `undefined` is `none`, and
  destructuring defaults `page = 1`, `limit = 10` are applied with `getD`).
* The Redis store is an association list from keys to values; `SET`
  prepends and `GET` takes the first match, which models overwrite.
  Serialization (`toString`/`parseInt` for the total count,
  `JSON.stringify`/`JSON.parse` for page results) is abstracted as the
  injective constructors of `CacheVal`: both round-trip on the values this
  handler stores.
* The remote resource (`Axios.get`) is a function from url to
  `Except String RemoteCsv`: `.error msg` models a thrown request error
  (caught by the route's `catch` block and turned into a 500), `.ok`
  carries both the raw body text (used by the full-body fetch for the
  line count) and the tokenized rows (the csv-parse lexer applied to the
  same bytes; quoting/trim mechanics of the `csv-parse` library are
  external and abstracted into this pre-tokenized view).
* The `csv-parse` options used by the route (`columns: true`, `from`,
  `to`, `on_record`) follow the library's documented semantics: the first
  physical row becomes the column names and is not counted; `from` and
  `to` are 1-based record positions, both inclusive, with the literal gate
  `from === 1 || records >= from`; `on_record` runs only for records
  inside the window and dropping a record is returning `null`.
* Side effects are recorded in a trace of `Op`s so that claims about
  "no fetch happened" or "disconnect on every path" are statements about
  the handler's output.
* TTL expiry is not modelled: a cache entry, once written, stays visible,
  which is exactly the "within the TTL window" regime the claims are
  about.
-/

namespace CsvReader

/-- Field value of a parsed record. `csv-parse` without a cast produces
string values; `Value.other` keeps the `typeof value === "string"` guard
from the filter callback representable. -/
inductive Value
  | str (s : String)
  | other
deriving DecidableEq, Repr

/-- Parsed CSV record: ordered column-name/value pairs, as built by
`csv-parse` with `columns: true` (`obj[columns[i].name] = record[i]`). -/
abbrev Rec := List (String × Value)

/-- Response payload written on the success path of the route:
`{ results, pageCount }`. -/
structure PageResult where
  results : List Rec
  pageCount : Int
deriving DecidableEq, Repr

/-- Value stored in the cache. `num` is the total-line count (stored via
`toString`, read back via `parseInt`); `page` is a JSON-serialized
`PageResult`. Both serializations round-trip, so they are abstracted as
constructors. -/
inductive CacheVal
  | num (n : Nat)
  | page (pr : PageResult)
deriving DecidableEq, Repr

/-- The Redis store, as an association list. -/
abbrev Cache := List (String × CacheVal)

/-- Redis `GET`: first binding for the key, if any. -/
def Cache.get (c : Cache) (k : String) : Option CacheVal :=
  (c.find? (fun kv => kv.1 == k)).map (fun kv => kv.2)

/-- Redis `SET` (with TTL, not tracked in the store itself): prepend, so
the newest binding shadows older ones. -/
def Cache.set (c : Cache) (k : String) (v : CacheVal) : Cache :=
  (k, v) :: c

/-- Observable side effects of one handler run, in order. -/
inductive Op
  | connect
  | cacheGet (key : String)
  | cacheSet (key : String) (ttlSeconds : Nat)
  | fetchFull (url : String)
  | fetchStream (url : String)
  | disconnect
deriving DecidableEq, Repr

/-- Body of a JSON response: an error object, a page result, or a bare
number (the latter only arises from `JSON.parse` of a cached total-count
string, never reachable through this handler's own writes). -/
inductive Body
  | error (msg : String)
  | page (pr : PageResult)
  | raw (n : Nat)
deriving DecidableEq, Repr

/-- Results list of a page body, when the body is a page. -/
def Body.results? : Body → Option (List Rec)
  | Body.page pr => some pr.results
  | _ => none

/-- A response: status code, JSON body, and whether the
`DEFAULT_RESPONSE_HEADERS` option object was passed to
`NextResponse.json` (the exact header set is an external constant; only
its presence matters to the spec). -/
structure Response where
  status : Nat
  body : Body
  hasDefaultHeaders : Bool
deriving DecidableEq, Repr

/-- Remote CSV resource: raw body text (what the full-body fetch sees)
and the same bytes tokenized into a header row plus data rows (what the
streamed fetch piped into `csv-parse` sees). -/
structure RemoteCsv where
  text : String
  header : List String
  rows : List (List String)

/-- External world of one request: the cache store and the remote. -/
structure World where
  cache : Cache
  remote : String → Except String RemoteCsv

/-- Modelled from the spec: the configuration constants imported from
`utils/constants`, a file not present under `src/` — the maximum allowed
page size (last element of `DEFAULT_PAGE_SIZES`), `CACHE_EXPIRY_SECONDS`
and `MANDATORY_HEADERS`. -/
structure Config where
  maxPageSize : Int
  cacheExpirySeconds : Nat
  mandatoryHeaders : List String

/-- Parsed JSON request body `{url, filter, page = 1, limit = 10}`;
absent fields are `none`. -/
structure Req where
  url : Option String
  filter : Option String
  page : Option Int
  limit : Option Int

/-- Result of one handler run: the HTTP response, the cache store as the
handler leaves it, and the ordered trace of side effects. -/
structure HandlerResult where
  resp : Response
  cache : Cache
  trace : List Op

/-- Page-result cache key: the template literal
`url-page-limit-filter`. A missing filter is interpolated by JS as the
text `undefined`. -/
def responseKey (url : String) (page limit : Int) (filter : Option String) : String :=
  url ++ "-" ++ toString page ++ "-" ++ toString limit ++ "-" ++
    (match filter with
     | none => "undefined"
     | some f => f)

/-- Total-line-count cache key: the template literal `url-total`,
a function of the url alone. -/
def totalKey (url : String) : String :=
  url ++ "-total"

/-- Contiguous-subsequence test on character lists, the meaning of JS
`String.prototype.includes`: the needle occurs contiguously in the
haystack. -/
def charsInclude (needle : List Char) : List Char → Bool
  | [] => needle.isEmpty
  | c :: cs => needle.isPrefixOf (c :: cs) || charsInclude needle cs

/-- JS `hay.includes(needle)` on strings. -/
def jsIncludes (hay needle : String) : Bool :=
  charsInclude needle.data hay.data

/-- JS `s.endsWith(suffix)`, on the character sequence. -/
def jsEndsWith (s suffix : String) : Bool :=
  suffix.data.isSuffixOf s.data

/-- JS `s.toLowerCase()`, character by character. -/
def jsToLower (s : String) : String :=
  ⟨s.data.map Char.toLower⟩

/-- Splitting a character list at every occurrence of a separator
character; the accumulator holds the current segment reversed. -/
def splitCharsAux (sep : Char) : List Char → List Char → List (List Char)
  | [], acc => [acc.reverse]
  | c :: cs, acc =>
      if c = sep then acc.reverse :: splitCharsAux sep cs []
      else splitCharsAux sep cs (c :: acc)

/-- JS `s.split(sep)` for a one-character separator: the newline-delimited
segments of the string (`"".split` gives `[""]`, like JS). -/
def jsSplitChar (sep : Char) (s : String) : List String :=
  (splitCharsAux sep s.data []).map fun l => ⟨l⟩

/-- Joining strings with a separator (used to build fixture bodies). -/
def joinSep (sep : String) : List String → String
  | [] => ""
  | [x] => x
  | x :: y :: xs => x ++ sep ++ joinSep sep (y :: xs)

/-- Total-line heuristic of the route: `csvString.split("\n").length - 1`
(the number of newline-delimited lines of the raw body, minus one for the
header line). -/
def totalNoOfLines (body : String) : Nat :=
  (jsSplitChar '\n' body).length - 1

/-- PageCount expression of the route:
`total % limit === 0 ? total / limit : Math.floor(total / limit) + 1`.
On the non-negative operands the route produces, JS `/`+`Math.floor`
agrees with `Int` division. -/
def computePageCount (total limit : Int) : Int :=
  if total % limit = 0 then total / limit else total / limit + 1

/-- Filter predicate of the route's `on_record` callback:
`Object.values(record).findIndex(v => typeof v === "string" &&
v.toLowerCase().includes(filter.toLowerCase())) > -1`, i.e. some field is
a string whose lowercase form contains the lowercase filter text. -/
def matchesFilter (f : String) (record : Rec) : Bool :=
  (record.map Prod.snd).any fun v =>
    match v with
    | Value.str s => jsIncludes (jsToLower s) (jsToLower f)
    | Value.other => false

/-- The `on_record` callback: `if (!filter) return record` (JS falsy
covers both an absent filter and the empty string), otherwise keep the
record exactly when the filter predicate holds, else return `null`. -/
def on_record (filter : Option String) (record : Rec) : Option Rec :=
  match filter with
  | none => some record
  | some f =>
      if f = "" then some record
      else if matchesFilter f record then some record else none

/-- Record construction of `csv-parse` with `columns: true`: pair the
column names from the header row with the row's values in order. (A
column-count mismatch would raise in the library; well-formed inputs have
equal lengths, and `zip` is used here.) -/
def recordOfRow (header : List String) (row : List String) : Rec :=
  header.zip (row.map Value.str)

/-- The windowed parse performed by `csv-parse` under the route's
options: data records are counted 1-based (the header row is consumed for
column names and not counted); record `k` is handled exactly when
`from === 1 || k >= from` and `k <= to` (the library's `from`/`to` are
both inclusive record positions), and handled records pass through
`on_record`. -/
def parseWindow (header : List String) (rows : List (List String))
    (fromIdx toIdx : Int) (filter : Option String) : List Rec :=
  (List.enumFrom 1 rows).filterMap fun kr =>
    if (fromIdx = 1 ∨ fromIdx ≤ (kr.1 : Int)) ∧ (kr.1 : Int) ≤ toIdx then
      on_record filter (recordOfRow header kr.2)
    else none

/-- A 400 response with the default headers attached. -/
def err400 (msg : String) : Response :=
  ⟨400, Body.error msg, true⟩

/-- The catch-block's 500 response carrying the thrown message, with the
default headers attached. -/
def err500 (msg : String) : Response :=
  ⟨500, Body.error msg, true⟩

/-- Body produced by `JSON.parse` of a cached string on the cache-hit
path. -/
def bodyOfVal : CacheVal → Body
  | CacheVal.num n => Body.raw n
  | CacheVal.page pr => Body.page pr

/-- The route's validation chain, in source order: `!url`, missing
`.csv` suffix, `!limit || limit < 0`, `!limit || limit > max`,
`page < 1`. Returns the 400 response of the first failing check, `none`
when validation passes. -/
def validateResp (cfg : Config) (req : Req) : Option Response :=
  let page := req.page.getD 1
  let limit := req.limit.getD 10
  if req.url = none ∨ req.url = some "" then
    some (err400 "url is required")
  else if ¬jsEndsWith (req.url.getD "") ".csv" then
    some (err400 "url should be a link to csv file")
  else if limit = 0 ∨ limit < 0 then
    some (err400 "limit is required and should be greater than 0")
  else if limit = 0 ∨ limit > cfg.maxPageSize then
    some (err400 "limit is required and should be greater than 0")
  else if page < 1 then
    some (err400 "page is required and should be greater than 0")
  else
    none

/-- Reading the cached total-line value back with `parseInt`. A
`PageResult` JSON text does not parse as a number (`parseInt` gives
`NaN`); that branch is unreachable through this handler's own writes and
is modelled as 0. -/
def jsParseIntOfVal : CacheVal → Nat
  | CacheVal.num n => n
  | CacheVal.page _ => 0

/-- Stage after total-count resolution (`route.ts` lines 113–175): fresh
streamed fetch, windowed parse, empty-result check, mandatory-header
check, response assembly and page-cache write. The fresh success response
is built by `NextResponse.json(responseData)` with no options object, so
it does not carry the default headers. -/
def parseStage (cfg : Config) (u : String) (page limit : Int)
    (filter : Option String) (c : Cache) (total : Nat)
    (remote : String → Except String RemoteCsv) (tr : List Op) : HandlerResult :=
  let fromIdx : Int := (page - 1) * limit
  let toIdx : Int := fromIdx + limit
  match remote u with
  | Except.error m => ⟨err500 m, c, tr ++ [Op.fetchStream u]⟩
  | Except.ok rc =>
      let records := parseWindow rc.header rc.rows fromIdx toIdx filter
      match records with
      | [] => ⟨⟨404, Body.error "No records found", true⟩, c, tr ++ [Op.fetchStream u]⟩
      | r0 :: rest =>
          if cfg.mandatoryHeaders.all (fun h => (r0.map Prod.fst).contains h) then
            let responseData : PageResult :=
              ⟨r0 :: rest, computePageCount (total : Int) limit⟩
            ⟨⟨200, Body.page responseData, false⟩,
              Cache.set c (responseKey u page limit filter) (CacheVal.page responseData),
              tr ++ [Op.fetchStream u,
                     Op.cacheSet (responseKey u page limit filter) cfg.cacheExpirySeconds]⟩
          else
            ⟨⟨400, Body.error "Mandatory headers are missing", true⟩, c,
              tr ++ [Op.fetchStream u]⟩

/-- Total-count resolution (`route.ts` lines 96–111): read the
url-derived total key; on a miss, full-body fetch, count lines, write the
total back with the configured TTL. -/
def totalStage (cfg : Config) (u : String) (page limit : Int)
    (filter : Option String) (w : World) (tr : List Op) : HandlerResult :=
  match Cache.get w.cache (totalKey u) with
  | some v =>
      parseStage cfg u page limit filter w.cache (jsParseIntOfVal v) w.remote
        (tr ++ [Op.cacheGet (totalKey u)])
  | none =>
      match w.remote u with
      | Except.error m =>
          ⟨err500 m, w.cache, tr ++ [Op.cacheGet (totalKey u), Op.fetchFull u]⟩
      | Except.ok rc =>
          let total := totalNoOfLines rc.text
          parseStage cfg u page limit filter
            (Cache.set w.cache (totalKey u) (CacheVal.num total)) total w.remote
            (tr ++ [Op.cacheGet (totalKey u), Op.fetchFull u,
                    Op.cacheSet (totalKey u) cfg.cacheExpirySeconds])

/-- Page-cache lookup (`route.ts` lines 88–94): on a hit, return the
parsed cached payload with the default headers; on a miss, continue with
total-count resolution. -/
def cacheStage (cfg : Config) (u : String) (page limit : Int)
    (filter : Option String) (w : World) : HandlerResult :=
  match Cache.get w.cache (responseKey u page limit filter) with
  | some v =>
      ⟨⟨200, bodyOfVal v, true⟩, w.cache,
        [Op.connect, Op.cacheGet (responseKey u page limit filter)]⟩
  | none =>
      totalStage cfg u page limit filter w
        [Op.connect, Op.cacheGet (responseKey u page limit filter)]

/-- The `try` block of the handler: validation first, then the cache and
compute stages with the destructuring defaults applied. -/
def POSTtry (cfg : Config) (req : Req) (w : World) : HandlerResult :=
  match validateResp cfg req with
  | some r => ⟨r, w.cache, [Op.connect]⟩
  | none =>
      cacheStage cfg (req.url.getD "") (req.page.getD 1) (req.limit.getD 10)
        req.filter w

/-- The whole `POST` handler: the Redis client is constructed before the
`try` block (the leading `connect`), and the `finally` block disconnects
it on every exit path (the trailing `disconnect`). -/
def POST (cfg : Config) (req : Req) (w : World) : HandlerResult :=
  let r := POSTtry cfg req w
  ⟨r.resp, r.cache, r.trace ++ [Op.disconnect]⟩

/-- PageCount of a page body, when the body is a page. -/
def Body.pageCount? : Body → Option Int
  | Body.page pr => some pr.pageCount
  | _ => none

/-- Redis `GET` right after a `SET` of the same key yields the value just
written. -/
theorem Cache.get_set_self (c : Cache) (k : String) (v : CacheVal) :
    Cache.get (Cache.set c k v) k = some v := by
  simp [Cache.get, Cache.set, List.find?]

/-! ### Concrete fixtures -/

/-- Header of the spec's fixture CSV. -/
def fixtureHeader : List String := ["id", "name", "email"]

/-- Data row `i` of the fixture CSV. -/
def fixtureRow (i : Nat) : List String :=
  [toString i, "name" ++ toString i, "user" ++ toString i ++ "@mail.com"]

/-- The 25 data rows of the fixture CSV, ids 1 through 25. -/
def fixtureRows : List (List String) :=
  (List.range 25).map fun i => fixtureRow (i + 1)

/-- Raw body of the fixture CSV: header line plus 25 data lines. -/
def fixtureText : String :=
  joinSep "\n" ("id,name,email" :: fixtureRows.map (joinSep ","))

/-- The fixture CSV as a remote resource. -/
def fixture : RemoteCsv := ⟨fixtureText, fixtureHeader, fixtureRows⟩

/-- World with an empty cache serving the fixture at `data.csv`. -/
def fixtureWorld : World :=
  ⟨[], fun u => if u = "data.csv" then Except.ok fixture else Except.error "getaddrinfo ENOTFOUND"⟩

/-- A configuration instance: max page size 100, one-hour TTL, the
fixture's three column names mandatory. -/
def cfg0 : Config := ⟨100, 3600, ["id", "name", "email"]⟩

/-- The spec's example request: the fixture url, no filter, `page = 3`,
`limit = 10`. -/
def fixtureReq : Req := ⟨some "data.csv", none, some 3, some 10⟩

/-! ### C1 -/

/-- C1: evaluation of the handler at the spec's own fixture (25 data
rows, `limit = 10`, `page = 3`). The claim predicts the data rows with
0-based indices in `[20, 25)` — five records, the first with id 21 —
but the handler passes `from = (page-1)*limit = 20` and
`to = from + limit = 30` straight to the parser, whose `from`/`to` are
1-based inclusive record positions, so it returns six records and the
first one is data row 20 (0-based index 19). `pageCount` is 3 as the
claim states. -/
theorem c1_fixture_window_off_by_one :
    (POST cfg0 fixtureReq fixtureWorld).resp.status = 200 ∧
    ((POST cfg0 fixtureReq fixtureWorld).resp.body.results?).map List.length = some 6 ∧
    ((POST cfg0 fixtureReq fixtureWorld).resp.body.results?).bind List.head? =
      some (recordOfRow fixtureHeader (fixtureRow 20)) ∧
    (POST cfg0 fixtureReq fixtureWorld).resp.body.pageCount? = some 3 :=
  ⟨rfl, rfl, rfl, rfl⟩

/-! ### C4 -/

/-- C4: the route's `pageCount` expression — `total / limit` when
`limit` divides `total`, `floor(total / limit) + 1` otherwise — equals
exact ceiling division `(total + limit - 1) / limit` for every total
`≥ 1` and limit `≥ 1`. -/
theorem c4_pageCount_is_ceiling (T L : Int) (hT : 1 ≤ T) (hL : 1 ≤ L) :
    computePageCount T L = (T + L - 1) / L := by
  have hL0 : L ≠ 0 := by omega
  have hdm : L * (T / L) + T % L = T := Int.ediv_add_emod T L
  have hr0 : 0 ≤ T % L := Int.emod_nonneg T hL0
  have hrL : T % L < L := Int.emod_lt_of_pos T (by omega)
  unfold computePageCount
  by_cases h : T % L = 0
  · rw [if_pos h]
    have key : T + L - 1 = (L - 1) + T / L * L := by
      have hc : T / L * L = L * (T / L) := by ring
      rw [hc]; linarith
    have hz : (L - 1) / L = 0 :=
      Int.ediv_eq_zero_of_lt (by linarith) (by linarith)
    rw [key, Int.add_mul_ediv_right _ _ hL0, hz, zero_add]
  · rw [if_neg h]
    have h1 : 1 ≤ T % L := by
      have := lt_of_le_of_ne hr0 (Ne.symm h)
      omega
    have key : T + L - 1 = (T % L - 1) + (T / L + 1) * L := by
      have hc : (T / L + 1) * L = L * (T / L) + L := by ring
      rw [hc]; linarith
    have hz : (T % L - 1) / L = 0 :=
      Int.ediv_eq_zero_of_lt (by linarith) (by linarith)
    rw [key, Int.add_mul_ediv_right _ _ hL0, hz, zero_add]

/-- Witness for C4 at the fixture's numbers: 25 rows with limit 10 give
`ceil(25/10) = 3` pages. -/
theorem c4_pageCount_is_ceiling_witness :
    (1 : Int) ≤ 25 ∧ (1 : Int) ≤ 10 ∧ computePageCount 25 10 = (25 + 10 - 1) / 10 :=
  ⟨by norm_num, by norm_num, c4_pageCount_is_ceiling 25 10 (by norm_num) (by norm_num)⟩

/-! ### C5 -/

/-- C5: with a (truthy) filter string, every record produced by the
windowed parse has some string-valued field whose lowercase form contains
the lowercase filter text, and any record with no such field is excluded
from the output. -/
theorem c5_filter_correct (header : List String) (rows : List (List String))
    (fromIdx toIdx : Int) (f : String) (hf : ¬f = "") :
    (∀ r ∈ parseWindow header rows fromIdx toIdx (some f), matchesFilter f r = true) ∧
    (∀ r : Rec, matchesFilter f r = false →
      r ∉ parseWindow header rows fromIdx toIdx (some f)) := by
  have main : ∀ r ∈ parseWindow header rows fromIdx toIdx (some f),
      matchesFilter f r = true := by
    intro r hr
    unfold parseWindow at hr
    rw [List.mem_filterMap] at hr
    obtain ⟨kr, _, hsome⟩ := hr
    split at hsome
    · simp only [on_record] at hsome
      rw [if_neg hf] at hsome
      split at hsome
      · cases hsome
        assumption
      · cases hsome
    · cases hsome
  refine ⟨main, fun r hm hr => ?_⟩
  rw [main r hr] at hm
  cases hm

/-- Witness for C5: filtering two rows with `"an"` keeps the record
whose name field is `"Anna"`, and that record matches. -/
theorem c5_filter_correct_witness :
    ¬("an" : String) = "" ∧
      matchesFilter "an" [("id", Value.str "2"), ("name", Value.str "Anna")] = true := by
  refine ⟨by decide, ?_⟩
  exact (c5_filter_correct ["id", "name"] [["1", "Bob"], ["2", "Anna"]] 0 10 "an"
    (by decide)).1 _ (by decide)

/-! ### C10 -/

/-- C10: the page-result cache key built for a request with no filter
field equals the key built when the filter is the literal string
`"undefined"` — the template literal interpolates the absent filter as
the text `undefined` — so the two requests share one cached entry. -/
theorem c10_responseKey_undefined_collision (u : String) (p l : Int) :
    responseKey u p l none = responseKey u p l (some "undefined") := rfl

/-! ### Classification lemmas for the compute stages -/

/-- Every response produced by the validation chain is a 400 error with
the default headers. -/
theorem validateResp_some_shape (cfg : Config) (req : Req) (r : Response)
    (h : validateResp cfg req = some r) : ∃ m, r = err400 m := by
  simp only [validateResp] at h
  split_ifs at h <;> first | exact ⟨_, (Option.some.inj h).symm⟩ | exact Option.noConfusion h

/-- The parse stage either fails with the default headers attached and a
non-page body, or succeeds with a fresh 200 page response built without
the default headers, in which case the page is stored in the cache under
the page-result key and a streamed fetch of the url is in the trace. -/
theorem parseStage_cases (cfg : Config) (u : String) (page limit : Int)
    (filter : Option String) (c : Cache) (total : Nat)
    (remote : String → Except String RemoteCsv) (tr : List Op) :
    (∃ pd, (parseStage cfg u page limit filter c total remote tr).resp
          = ⟨200, Body.page pd, false⟩ ∧
        Cache.get (parseStage cfg u page limit filter c total remote tr).cache
            (responseKey u page limit filter) = some (CacheVal.page pd) ∧
        Op.fetchStream u ∈ (parseStage cfg u page limit filter c total remote tr).trace) ∨
    ((parseStage cfg u page limit filter c total remote tr).resp.hasDefaultHeaders = true ∧
      ∀ pr, (parseStage cfg u page limit filter c total remote tr).resp.body ≠ Body.page pr) := by
  simp only [parseStage]
  repeat' split
  · exact Or.inr ⟨rfl, fun pr h => Body.noConfusion h⟩
  · exact Or.inr ⟨rfl, fun pr h => Body.noConfusion h⟩
  · refine Or.inl ⟨_, rfl, Cache.get_set_self _ _ _, ?_⟩
    simp
  · exact Or.inr ⟨rfl, fun pr h => Body.noConfusion h⟩

/-- The same classification lifted over total-count resolution. -/
theorem totalStage_cases (cfg : Config) (u : String) (page limit : Int)
    (filter : Option String) (w : World) (tr : List Op) :
    (∃ pd, (totalStage cfg u page limit filter w tr).resp = ⟨200, Body.page pd, false⟩ ∧
        Cache.get (totalStage cfg u page limit filter w tr).cache
            (responseKey u page limit filter) = some (CacheVal.page pd) ∧
        Op.fetchStream u ∈ (totalStage cfg u page limit filter w tr).trace) ∨
    ((totalStage cfg u page limit filter w tr).resp.hasDefaultHeaders = true ∧
      ∀ pr, (totalStage cfg u page limit filter w tr).resp.body ≠ Body.page pr) := by
  simp only [totalStage]
  split
  · exact parseStage_cases cfg u page limit filter w.cache _ w.remote _
  · split
    · exact Or.inr ⟨rfl, fun pr h => Body.noConfusion h⟩
    · exact parseStage_cases cfg u page limit filter _ _ w.remote _

/-- The parse stage never removes existing cache entries. -/
theorem parseStage_cache_mono (cfg : Config) (u : String) (page limit : Int)
    (filter : Option String) (c : Cache) (total : Nat)
    (remote : String → Except String RemoteCsv) (tr : List Op) :
    ∀ kv ∈ c, kv ∈ (parseStage cfg u page limit filter c total remote tr).cache := by
  simp only [parseStage]
  repeat' split
  all_goals intro kv hkv
  all_goals first
    | exact hkv
    | exact List.mem_cons_of_mem _ hkv

/-- The parse stage only ever appends to the trace it is given. -/
theorem parseStage_trace_mono (cfg : Config) (u : String) (page limit : Int)
    (filter : Option String) (c : Cache) (total : Nat)
    (remote : String → Except String RemoteCsv) (tr : List Op) :
    ∃ rest, (parseStage cfg u page limit filter c total remote tr).trace = tr ++ rest := by
  simp only [parseStage]
  repeat' split
  all_goals exact ⟨_, rfl⟩

/-- The total-count stage only ever appends to the trace it is given. -/
theorem totalStage_trace_mono (cfg : Config) (u : String) (page limit : Int)
    (filter : Option String) (w : World) (tr : List Op) :
    ∃ rest, (totalStage cfg u page limit filter w tr).trace = tr ++ rest := by
  unfold totalStage
  split
  · obtain ⟨rest, hr⟩ := parseStage_trace_mono cfg u page limit filter w.cache _ w.remote
      (tr ++ [Op.cacheGet (totalKey u)])
    exact ⟨[Op.cacheGet (totalKey u)] ++ rest, by rw [hr, List.append_assoc]⟩
  · split
    · exact ⟨_, rfl⟩
    · obtain ⟨rest, hr⟩ := parseStage_trace_mono cfg u page limit filter _ _ w.remote
        (tr ++ [Op.cacheGet (totalKey u), Op.fetchFull u,
          Op.cacheSet (totalKey u) cfg.cacheExpirySeconds])
      exact ⟨[Op.cacheGet (totalKey u), Op.fetchFull u,
        Op.cacheSet (totalKey u) cfg.cacheExpirySeconds] ++ rest,
        by rw [hr, List.append_assoc]⟩

/-- Every run of the `try` block produces a trace that starts with the
cache-client connection. -/
theorem POSTtry_trace_connect (cfg : Config) (req : Req) (w : World) :
    ∃ rest, (POSTtry cfg req w).trace = Op.connect :: rest := by
  unfold POSTtry
  split
  · exact ⟨[], rfl⟩
  · unfold cacheStage
    split
    · exact ⟨_, rfl⟩
    · obtain ⟨rest, hr⟩ := totalStage_trace_mono cfg _ _ _ req.filter w
        [Op.connect, Op.cacheGet (responseKey (req.url.getD "") (req.page.getD 1)
          (req.limit.getD 10) req.filter)]
      exact ⟨_, hr⟩

/-! ### C7 -/

/-- Validation rules as the claim states them, in the claimed order:
url present (and non-empty), url ends in `.csv`, `limit` positive and at
most the configured maximum, `page` at least 1; the first violated rule
determines the 400 response. This is the spec-side reference definition
that `validateResp` (translated from the source) is compared against. -/
def expectedValidationError (cfg : Config) (req : Req) : Option Response :=
  let page := req.page.getD 1
  let limit := req.limit.getD 10
  match req.url with
  | none => some (err400 "url is required")
  | some u =>
      if u = "" then some (err400 "url is required")
      else if ¬jsEndsWith u ".csv" then some (err400 "url should be a link to csv file")
      else if limit ≤ 0 then some (err400 "limit is required and should be greater than 0")
      else if cfg.maxPageSize < limit then
        some (err400 "limit is required and should be greater than 0")
      else if page < 1 then some (err400 "page is required and should be greater than 0")
      else none

/-- The source's validation chain agrees with the claim-ordered reference
checker rule for rule. -/
theorem validateResp_eq_expected (cfg : Config) (req : Req) :
    validateResp cfg req = expectedValidationError cfg req := by
  simp only [validateResp, expectedValidationError]
  cases hu : req.url with
  | none => simp
  | some u =>
      simp only [Option.getD_some, Option.some.injEq, reduceCtorEq, false_or]
      split_ifs <;> first | rfl | omega

/-- C7: whenever the claim-ordered validation rules reject a request,
the handler returns exactly that 400 response, leaves the cache
untouched, and its side-effect trace is only the cache-client
open/close pair — no cache read or write and no remote fetch happens. -/
theorem c7_validation_short_circuits (cfg : Config) (req : Req) (w : World) (r : Response)
    (h : expectedValidationError cfg req = some r) :
    POST cfg req w = ⟨r, w.cache, [Op.connect, Op.disconnect]⟩ := by
  have hv : validateResp cfg req = some r := by
    rw [validateResp_eq_expected]; exact h
  simp only [POST, POSTtry]
  rw [hv]
  rfl

/-- Witness for C7: a request with `limit = 0` is rejected with the 400
limit message, before any cache or fetch operation. -/
theorem c7_validation_short_circuits_witness :
    expectedValidationError cfg0 ⟨some "data.csv", none, some 1, some 0⟩
        = some (err400 "limit is required and should be greater than 0") ∧
      POST cfg0 ⟨some "data.csv", none, some 1, some 0⟩ fixtureWorld
        = ⟨err400 "limit is required and should be greater than 0", fixtureWorld.cache,
            [Op.connect, Op.disconnect]⟩ :=
  ⟨rfl, c7_validation_short_circuits cfg0 ⟨some "data.csv", none, some 1, some 0⟩
    fixtureWorld _ rfl⟩

/-! ### C8 -/

/-- Classification of the whole `try` block: every response carries the
default headers except the freshly computed 200 page response. -/
theorem POSTtry_headers (cfg : Config) (req : Req) (w : World) :
    (POSTtry cfg req w).resp.hasDefaultHeaders = true ∨
    ((POSTtry cfg req w).resp.status = 200 ∧
      (∃ pr, (POSTtry cfg req w).resp.body = Body.page pr) ∧
      ∃ uu, Op.fetchStream uu ∈ (POSTtry cfg req w).trace) := by
  simp only [POSTtry]
  cases hv : validateResp cfg req with
  | some r =>
      obtain ⟨m, rfl⟩ := validateResp_some_shape cfg req r hv
      exact Or.inl rfl
  | none =>
      simp only [cacheStage]
      split
      · exact Or.inl rfl
      · rcases totalStage_cases cfg (req.url.getD "") (req.page.getD 1) (req.limit.getD 10)
          req.filter w _ with ⟨pd, hresp, _, hmem⟩ | ⟨hhd, _⟩
        · exact Or.inr ⟨by rw [hresp], ⟨pd, by rw [hresp]⟩, ⟨_, hmem⟩⟩
        · exact Or.inl hhd

/-- C8 counterexample: a concrete fresh (non-cached) successful request
whose 200 response is returned without the default response headers —
the success path calls `NextResponse.json(responseData)` with no options
object. -/
theorem c8_fresh_success_lacks_default_headers :
    (POST cfg0 fixtureReq fixtureWorld).resp.status = 200 ∧
    (POST cfg0 fixtureReq fixtureWorld).resp.hasDefaultHeaders = false :=
  ⟨rfl, rfl⟩

/-- C8 amended: every response of the handler carries the default
response headers, except the 200 page response assembled after a fresh
computation (one whose trace contains a streamed fetch), which is
returned without them. -/
theorem c8_headers_except_fresh_success (cfg : Config) (req : Req) (w : World) :
    (POST cfg req w).resp.hasDefaultHeaders = true ∨
    ((POST cfg req w).resp.status = 200 ∧
      (∃ pr, (POST cfg req w).resp.body = Body.page pr) ∧
      ∃ uu, Op.fetchStream uu ∈ (POST cfg req w).trace) := by
  rcases POSTtry_headers cfg req w with h | ⟨h200, ⟨pr, hpr⟩, ⟨uu, hmem⟩⟩
  · exact Or.inl h
  · exact Or.inr ⟨h200, ⟨pr, hpr⟩, ⟨uu, List.mem_append_left _ hmem⟩⟩

/-! ### C2 -/

/-- Remote-fetch operations of a trace (full-body or streamed). -/
def isRemoteFetch : Op → Bool
  | Op.fetchFull _ => true
  | Op.fetchStream _ => true
  | _ => false

/-- Whenever the cache stage answers with a page body, that page is
stored in the cache it leaves behind, under the page-result key — either
it was a cache hit (store unchanged) or the fresh computation just wrote
it. -/
theorem cacheStage_page_complete (cfg : Config) (u : String) (page limit : Int)
    (filter : Option String) (w : World) (pr : PageResult)
    (h : (cacheStage cfg u page limit filter w).resp.body = Body.page pr) :
    Cache.get (cacheStage cfg u page limit filter w).cache (responseKey u page limit filter)
      = some (CacheVal.page pr) := by
  simp only [cacheStage] at h ⊢
  cases hk : Cache.get w.cache (responseKey u page limit filter) with
  | some v =>
      simp only [hk] at h ⊢
      cases v with
      | num n => exact absurd h (by simp [bodyOfVal])
      | page pr2 =>
          simp only [bodyOfVal, Body.page.injEq] at h
          rw [h]
  | none =>
      simp only [hk] at h ⊢
      rcases totalStage_cases cfg u page limit filter w _ with ⟨pd, hresp, hget, _⟩ | ⟨_, hne⟩
      · rw [hresp] at h
        simp only [Body.page.injEq] at h
        rw [← h]
        exact hget
      · exact absurd h (hne pr)

/-- C2: if a request produces a page-result body, then repeating the
identical request against the cache state the first call left behind
(within the TTL window, which the store model represents) returns the
same page result with status 200, and its side-effect trace performs no
remote fetch — and hence no parse — at all. -/
theorem c2_second_call_served_from_cache (cfg : Config) (req : Req) (w : World)
    (pr : PageResult) (h : (POST cfg req w).resp.body = Body.page pr) :
    (POST cfg req ⟨(POST cfg req w).cache, w.remote⟩).resp.body = Body.page pr ∧
    (POST cfg req ⟨(POST cfg req w).cache, w.remote⟩).resp.status = 200 ∧
    ((POST cfg req ⟨(POST cfg req w).cache, w.remote⟩).trace.all
      fun op => !isRemoteFetch op) = true := by
  have hbody : (POSTtry cfg req w).resp.body = Body.page pr := h
  cases hv : validateResp cfg req with
  | some r =>
      obtain ⟨m, rfl⟩ := validateResp_some_shape cfg req r hv
      have hne : (POSTtry cfg req w).resp.body = Body.error m := by
        simp only [POSTtry, hv]
        rfl
      rw [hne] at hbody
      exact absurd hbody (fun hb => Body.noConfusion hb)
  | none =>
      have hps : POSTtry cfg req w
          = cacheStage cfg (req.url.getD "") (req.page.getD 1) (req.limit.getD 10)
              req.filter w := by
        simp only [POSTtry, hv]
      rw [hps] at hbody
      have hget : Cache.get (POSTtry cfg req w).cache
          (responseKey (req.url.getD "") (req.page.getD 1) (req.limit.getD 10) req.filter)
          = some (CacheVal.page pr) := by
        rw [hps]
        exact cacheStage_page_complete cfg _ _ _ req.filter w pr hbody
      have hcache : (POST cfg req w).cache = (POSTtry cfg req w).cache := rfl
      have h2 : POSTtry cfg req ⟨(POST cfg req w).cache, w.remote⟩
          = ⟨⟨200, bodyOfVal (CacheVal.page pr), true⟩, (POST cfg req w).cache,
              [Op.connect, Op.cacheGet (responseKey (req.url.getD "") (req.page.getD 1)
                (req.limit.getD 10) req.filter)]⟩ := by
        simp only [POSTtry, hv, cacheStage]
        rw [hcache, hget]
      refine ⟨?_, ?_, ?_⟩
      · show (POSTtry cfg req ⟨(POST cfg req w).cache, w.remote⟩).resp.body = Body.page pr
        rw [h2]
        rfl
      · show (POSTtry cfg req ⟨(POST cfg req w).cache, w.remote⟩).resp.status = 200
        rw [h2]
      · show ((POSTtry cfg req ⟨(POST cfg req w).cache, w.remote⟩).trace
            ++ [Op.disconnect]).all (fun op => !isRemoteFetch op) = true
        rw [h2]
        rfl

/-- Small two-row CSV resource for concrete witnesses. -/
def mini : RemoteCsv :=
  ⟨"id,name,email" ++ "\n" ++ "1,a,b" ++ "\n" ++ "2,c,d",
    ["id", "name", "email"], [["1", "a", "b"], ["2", "c", "d"]]⟩

/-- World with an empty cache serving `mini` at `mini.csv`. -/
def miniWorld : World :=
  ⟨[], fun u => if u = "mini.csv" then Except.ok mini else Except.error "getaddrinfo ENOTFOUND"⟩

/-- First page of `mini.csv` with the defaults. -/
def miniReq : Req := ⟨some "mini.csv", none, some 1, some 10⟩

/-- The page result the handler computes for `miniReq`: both records,
`pageCount = ceil(2/10) = 1`. -/
def miniPR : PageResult :=
  ⟨[[("id", Value.str "1"), ("name", Value.str "a"), ("email", Value.str "b")],
    [("id", Value.str "2"), ("name", Value.str "c"), ("email", Value.str "d")]], 1⟩

/-- Witness for C2: a concrete first call produces `miniPR`; replaying
the identical request on the resulting cache returns the same page and
performs no remote fetch. -/
theorem c2_second_call_served_from_cache_witness :
    (POST cfg0 miniReq miniWorld).resp.body = Body.page miniPR ∧
    (POST cfg0 miniReq ⟨(POST cfg0 miniReq miniWorld).cache, miniWorld.remote⟩).resp.body
        = Body.page miniPR ∧
    ((POST cfg0 miniReq ⟨(POST cfg0 miniReq miniWorld).cache, miniWorld.remote⟩).trace.all
      fun op => !isRemoteFetch op) = true := by
  have h : (POST cfg0 miniReq miniWorld).resp.body = Body.page miniPR := rfl
  have hc := c2_second_call_served_from_cache cfg0 miniReq miniWorld miniPR h
  exact ⟨h, hc.1, hc.2.2⟩

/-! ### C3 -/

/-- C3: on a valid request that misses both the page-result cache and the
total-line-count cache, the handler performs a full-body fetch of the
url, computes the total as the number of newline-delimited lines of the
raw body minus one, writes it to the cache with the configured TTL under
the url-derived total key (`url ++ "-total"`, independent of page, limit
and filter by construction), and that entry is present in the cache the
handler leaves behind. -/
theorem c3_total_count_fetch_and_cache (cfg : Config) (req : Req) (w : World)
    (u : String) (p l : Int) (rc : RemoteCsv)
    (hurl : req.url = some u) (hpage : req.page = some p) (hlimit : req.limit = some l)
    (hval : validateResp cfg req = none)
    (hmiss : Cache.get w.cache (responseKey u p l req.filter) = none)
    (htot : Cache.get w.cache (totalKey u) = none)
    (hrem : w.remote u = Except.ok rc) :
    Op.fetchFull u ∈ (POST cfg req w).trace ∧
    Op.cacheSet (totalKey u) cfg.cacheExpirySeconds ∈ (POST cfg req w).trace ∧
    (totalKey u, CacheVal.num (totalNoOfLines rc.text)) ∈ (POST cfg req w).cache := by
  have hps : POSTtry cfg req w
      = totalStage cfg u p l req.filter w
          [Op.connect, Op.cacheGet (responseKey u p l req.filter)] := by
    simp only [POSTtry, hval, hurl, hpage, hlimit, Option.getD_some, cacheStage, hmiss]
  have hts : totalStage cfg u p l req.filter w
        [Op.connect, Op.cacheGet (responseKey u p l req.filter)]
      = parseStage cfg u p l req.filter
          (Cache.set w.cache (totalKey u) (CacheVal.num (totalNoOfLines rc.text)))
          (totalNoOfLines rc.text) w.remote
          ([Op.connect, Op.cacheGet (responseKey u p l req.filter)] ++
            [Op.cacheGet (totalKey u), Op.fetchFull u,
              Op.cacheSet (totalKey u) cfg.cacheExpirySeconds]) := by
    simp only [totalStage, htot, hrem]
  obtain ⟨rest, htr⟩ := parseStage_trace_mono cfg u p l req.filter
    (Cache.set w.cache (totalKey u) (CacheVal.num (totalNoOfLines rc.text)))
    (totalNoOfLines rc.text) w.remote
    ([Op.connect, Op.cacheGet (responseKey u p l req.filter)] ++
      [Op.cacheGet (totalKey u), Op.fetchFull u,
        Op.cacheSet (totalKey u) cfg.cacheExpirySeconds])
  refine ⟨?_, ?_, ?_⟩
  · show Op.fetchFull u ∈ (POSTtry cfg req w).trace ++ [Op.disconnect]
    rw [hps, hts, htr]
    simp
  · show Op.cacheSet (totalKey u) cfg.cacheExpirySeconds
        ∈ (POSTtry cfg req w).trace ++ [Op.disconnect]
    rw [hps, hts, htr]
    simp
  · show (totalKey u, CacheVal.num (totalNoOfLines rc.text)) ∈ (POSTtry cfg req w).cache
    rw [hps, hts]
    exact parseStage_cache_mono cfg u p l req.filter _ _ w.remote _ _
      (List.mem_cons_self _ _)

/-- Witness for C3 on the two-row fixture: the full fetch happens, the
total 2 (three newline-delimited lines minus the header) is cached for
3600 seconds under `mini.csv-total`, and the entry remains at the end. -/
theorem c3_total_count_fetch_and_cache_witness :
    Op.fetchFull "mini.csv" ∈ (POST cfg0 miniReq miniWorld).trace ∧
    Op.cacheSet (totalKey "mini.csv") 3600 ∈ (POST cfg0 miniReq miniWorld).trace ∧
    (totalKey "mini.csv", CacheVal.num 2) ∈ (POST cfg0 miniReq miniWorld).cache :=
  c3_total_count_fetch_and_cache cfg0 miniReq miniWorld "mini.csv" 1 10 mini
    rfl rfl rfl rfl rfl rfl rfl

/-! ### C6 -/

/-- Response of the parse stage when the parse produced no records, and
when it produced records whose first record misses a mandatory header. -/
theorem parseStage_resp_of_records (cfg : Config) (u : String) (p l : Int)
    (f : Option String) (c : Cache) (total : Nat)
    (rem : String → Except String RemoteCsv) (tr : List Op) (rc : RemoteCsv)
    (hrem : rem u = Except.ok rc) :
    (parseWindow rc.header rc.rows ((p - 1) * l) ((p - 1) * l + l) f = [] →
      (parseStage cfg u p l f c total rem tr).resp
        = ⟨404, Body.error "No records found", true⟩) ∧
    (∀ r0 rest, parseWindow rc.header rc.rows ((p - 1) * l) ((p - 1) * l + l) f = r0 :: rest →
      (cfg.mandatoryHeaders.all fun hh => (r0.map Prod.fst).contains hh) = false →
      (parseStage cfg u p l f c total rem tr).resp
        = ⟨400, Body.error "Mandatory headers are missing", true⟩) := by
  constructor
  · intro hrec
    simp only [parseStage, hrem, hrec]
  · intro r0 rest hrec hhd
    simp only [parseStage, hrem, hrec, hhd]
    rfl

/-- C6: on a valid request that misses the page-result cache and reaches
the parse, if the windowed parse produced zero records — whether the file
is empty or the page lies beyond the data, which the handler does not
distinguish — the response is a 404 with error `No records found`; if
records were produced but the mandatory-header set is not contained in
the first record's keys, the response is a 400 with error `Mandatory
headers are missing`. -/
theorem c6_no_records_and_mandatory_headers (cfg : Config) (req : Req) (w : World)
    (u : String) (p l : Int) (rc : RemoteCsv)
    (hurl : req.url = some u) (hpage : req.page = some p) (hlimit : req.limit = some l)
    (hval : validateResp cfg req = none)
    (hmiss : Cache.get w.cache (responseKey u p l req.filter) = none)
    (hrem : w.remote u = Except.ok rc) :
    (parseWindow rc.header rc.rows ((p - 1) * l) ((p - 1) * l + l) req.filter = [] →
      (POST cfg req w).resp = ⟨404, Body.error "No records found", true⟩) ∧
    (∀ r0 rest,
      parseWindow rc.header rc.rows ((p - 1) * l) ((p - 1) * l + l) req.filter = r0 :: rest →
      (cfg.mandatoryHeaders.all fun hh => (r0.map Prod.fst).contains hh) = false →
      (POST cfg req w).resp = ⟨400, Body.error "Mandatory headers are missing", true⟩) := by
  have hps : POSTtry cfg req w
      = totalStage cfg u p l req.filter w
          [Op.connect, Op.cacheGet (responseKey u p l req.filter)] := by
    simp only [POSTtry, hval, hurl, hpage, hlimit, Option.getD_some, cacheStage, hmiss]
  have hresp : (POST cfg req w).resp
      = (totalStage cfg u p l req.filter w
          [Op.connect, Op.cacheGet (responseKey u p l req.filter)]).resp := by
    show (POSTtry cfg req w).resp = _
    rw [hps]
  cases htot : Cache.get w.cache (totalKey u) with
  | some v =>
      have hts : totalStage cfg u p l req.filter w
            [Op.connect, Op.cacheGet (responseKey u p l req.filter)]
          = parseStage cfg u p l req.filter w.cache (jsParseIntOfVal v) w.remote
              ([Op.connect, Op.cacheGet (responseKey u p l req.filter)] ++
                [Op.cacheGet (totalKey u)]) := by
        simp only [totalStage, htot]
      have hpr := parseStage_resp_of_records cfg u p l req.filter w.cache
        (jsParseIntOfVal v) w.remote
        ([Op.connect, Op.cacheGet (responseKey u p l req.filter)] ++
          [Op.cacheGet (totalKey u)]) rc hrem
      refine ⟨fun hrec => ?_, fun r0 rest hrec hhd => ?_⟩
      · rw [hresp, hts]; exact hpr.1 hrec
      · rw [hresp, hts]; exact hpr.2 r0 rest hrec hhd
  | none =>
      cases hre2 : w.remote u with
      | error m => rw [hrem] at hre2; exact Except.noConfusion hre2
      | ok rc2 =>
          have hrc : rc2 = rc := by
            rw [hrem] at hre2
            exact (Except.ok.inj hre2).symm
          subst hrc
          have hts : totalStage cfg u p l req.filter w
                [Op.connect, Op.cacheGet (responseKey u p l req.filter)]
              = parseStage cfg u p l req.filter
                  (Cache.set w.cache (totalKey u) (CacheVal.num (totalNoOfLines rc2.text)))
                  (totalNoOfLines rc2.text) w.remote
                  ([Op.connect, Op.cacheGet (responseKey u p l req.filter)] ++
                    [Op.cacheGet (totalKey u), Op.fetchFull u,
                      Op.cacheSet (totalKey u) cfg.cacheExpirySeconds]) := by
            simp only [totalStage, htot, hrem]
          have hpr := parseStage_resp_of_records cfg u p l req.filter
            (Cache.set w.cache (totalKey u) (CacheVal.num (totalNoOfLines rc2.text)))
            (totalNoOfLines rc2.text) w.remote
            ([Op.connect, Op.cacheGet (responseKey u p l req.filter)] ++
              [Op.cacheGet (totalKey u), Op.fetchFull u,
                Op.cacheSet (totalKey u) cfg.cacheExpirySeconds]) rc2 hrem
          refine ⟨fun hrec => ?_, fun r0 rest hrec hhd => ?_⟩
          · rw [hresp, hts]; exact hpr.1 hrec
          · rw [hresp, hts]; exact hpr.2 r0 rest hrec hhd

/-- CSV resource missing the mandatory `email` column. -/
def noEmail : RemoteCsv :=
  ⟨"id,name" ++ "\n" ++ "1,a" ++ "\n" ++ "2,b", ["id", "name"], [["1", "a"], ["2", "b"]]⟩

/-- World with an empty cache serving `noEmail` at `noemail.csv`. -/
def noEmailWorld : World :=
  ⟨[], fun u => if u = "noemail.csv" then Except.ok noEmail
    else Except.error "getaddrinfo ENOTFOUND"⟩

/-- Witness for C6: requesting a page past the fixture's 25 rows yields
the 404 `No records found` response, and a CSV without the mandatory
`email` column yields the 400 `Mandatory headers are missing` response
even though its rows parse. -/
theorem c6_no_records_and_mandatory_headers_witness :
    (POST cfg0 ⟨some "data.csv", none, some 10, some 10⟩ fixtureWorld).resp
        = ⟨404, Body.error "No records found", true⟩ ∧
    (POST cfg0 ⟨some "noemail.csv", none, some 1, some 10⟩ noEmailWorld).resp
        = ⟨400, Body.error "Mandatory headers are missing", true⟩ := by
  constructor
  · exact (c6_no_records_and_mandatory_headers cfg0 ⟨some "data.csv", none, some 10, some 10⟩
      fixtureWorld "data.csv" 10 10 fixture rfl rfl rfl rfl rfl rfl).1 rfl
  · exact (c6_no_records_and_mandatory_headers cfg0 ⟨some "noemail.csv", none, some 1, some 10⟩
      noEmailWorld "noemail.csv" 1 10 noEmail rfl rfl rfl rfl rfl rfl).2
      [("id", Value.str "1"), ("name", Value.str "a")]
      [[("id", Value.str "2"), ("name", Value.str "b")]] rfl rfl

/-! ### C9 -/

/-- C9: on every exit path of the handler — cache hit, each validation
failure, 404, schema failure, fresh success, or an error mapped to 500 —
the side-effect trace opens with the cache-client connection and its very
last operation is the `finally`-block disconnect. -/
theorem c9_disconnect_on_every_path (cfg : Config) (req : Req) (w : World) :
    (POST cfg req w).trace.head? = some Op.connect ∧
    (POST cfg req w).trace.getLast? = some Op.disconnect := by
  obtain ⟨rest, hr⟩ := POSTtry_trace_connect cfg req w
  simp only [POST]
  constructor
  · rw [hr]; rfl
  · rw [List.getLast?_concat]

end CsvReader
